import Mathlib

/-!
Shallow embedding of the traefik-proxmox-provider configuration engine.

The definitions below are translated from the Go source: the label-driven
configuration generator (getDefinedElements, getServiceIP, buildServerURL,
buildStreamServerAddress, buildHTTPConfiguration, buildTCPConfiguration,
buildUDPConfiguration, generateConfiguration) and the workload scanner
(scanServices). Go maps keyed by strings are modelled as association
lists; Go pointer fields that may be nil are modelled as Option; the
external label decoder and the cluster client calls are modelled as
explicit inputs.
-/

namespace ProxmoxProvider

/-- Association-list model of a Go map keyed by strings: lookup returns the
first binding for the key, mirroring map access that yields one value. -/
def lookupA {α : Type} : List (String × α) → String → Option α
  | [], _ => none
  | kv :: rest, key => if kv.1 = key then some kv.2 else lookupA rest key

/-- Association-list model of Go map assignment: replace the binding for the
key when present, append a fresh binding otherwise. -/
def insertA {α : Type} : List (String × α) → String → α → List (String × α)
  | [], key, v => [(key, v)]
  | kv :: rest, key, v =>
    if kv.1 = key then (key, v) :: rest else kv :: insertA rest key v

namespace Internal

/-- Modelled from the spec: one reported network address of a workload
(internal.IP), an address string together with an address-family tag. -/
structure IP where
  address : String
  addressType : String
deriving DecidableEq

/-- Modelled from the spec: a discovered workload (internal.Service): numeric
id, name, label mapping, and the list of reported network addresses. -/
structure Service where
  id : Nat
  name : String
  config : List (String × String)
  ips : List IP
deriving DecidableEq

end Internal

namespace Dynamic

/-- Modelled from the spec: an HTTP server endpoint (dynamic.Server) carrying
a URL and optional scheme and port hints used before resolution. -/
structure Server where
  url : String
  scheme : String
  port : String
deriving DecidableEq

/-- Modelled from the spec: the HTTP load balancer (dynamic.ServersLoadBalancer)
with a pass-host-header flag and an ordered server list. -/
structure ServersLoadBalancer where
  passHostHeader : Option Bool
  servers : List Server
deriving DecidableEq

/-- Modelled from the spec: an HTTP service (dynamic.Service) wrapping one
load-balancer descriptor. -/
structure Service where
  loadBalancer : Option ServersLoadBalancer
deriving DecidableEq

/-- Modelled from the spec: an HTTP router (dynamic.Router) referencing a
service, a rule and a numeric priority. -/
structure Router where
  service : String
  rule : String
  priority : Option Int
deriving DecidableEq

/-- Modelled from the spec: the HTTP container of the aggregate configuration
(dynamic.HTTPConfiguration); middlewares are opaque to the core. -/
structure HTTPConfiguration where
  routers : List (String × Router)
  services : List (String × Service)
  middlewares : List (String × Unit)
deriving DecidableEq

/-- Modelled from the spec: a TCP server endpoint (dynamic.TCPServer) with an
address and an optional port hint. -/
structure TCPServer where
  address : String
  port : String
deriving DecidableEq

/-- Modelled from the spec: the TCP load balancer (dynamic.TCPServersLoadBalancer). -/
structure TCPServersLoadBalancer where
  servers : List TCPServer
deriving DecidableEq

/-- Modelled from the spec: a TCP service (dynamic.TCPService). -/
structure TCPService where
  loadBalancer : Option TCPServersLoadBalancer
deriving DecidableEq

/-- Modelled from the spec: a TCP router (dynamic.TCPRouter). -/
structure TCPRouter where
  service : String
  rule : String
  priority : Option Int
deriving DecidableEq

/-- Modelled from the spec: the TCP container of the aggregate configuration. -/
structure TCPConfiguration where
  routers : List (String × TCPRouter)
  services : List (String × TCPService)
deriving DecidableEq

/-- Modelled from the spec: a UDP server endpoint (dynamic.UDPServer). -/
structure UDPServer where
  address : String
  port : String
deriving DecidableEq

/-- Modelled from the spec: the UDP load balancer (dynamic.UDPServersLoadBalancer). -/
structure UDPServersLoadBalancer where
  servers : List UDPServer
deriving DecidableEq

/-- Modelled from the spec: a UDP service (dynamic.UDPService). -/
structure UDPService where
  loadBalancer : Option UDPServersLoadBalancer
deriving DecidableEq

/-- Modelled from the spec: a UDP router (dynamic.UDPRouter); UDP routers
have no rule or priority concept. -/
structure UDPRouter where
  service : String
deriving DecidableEq

/-- Modelled from the spec: the UDP container of the aggregate configuration. -/
structure UDPConfiguration where
  routers : List (String × UDPRouter)
  services : List (String × UDPService)
deriving DecidableEq

/-- Modelled from the spec: the aggregate configuration (dynamic.Configuration). -/
structure Configuration where
  http : HTTPConfiguration
  tcp : TCPConfiguration
  udp : UDPConfiguration
deriving DecidableEq

/-- Go zero value dynamic.Router{}. -/
def emptyRouter : Router := { service := "", rule := "", priority := none }

/-- Go zero value dynamic.Service{}. -/
def emptyService : Service := { loadBalancer := none }

/-- Go zero value dynamic.Server{}. -/
def emptyServer : Server := { url := "", scheme := "", port := "" }

/-- Go zero value dynamic.TCPRouter{}. -/
def emptyTCPRouter : TCPRouter := { service := "", rule := "", priority := none }

/-- Go zero value dynamic.TCPService{}. -/
def emptyTCPService : TCPService := { loadBalancer := none }

/-- Go zero value dynamic.TCPServer{}. -/
def emptyTCPServer : TCPServer := { address := "", port := "" }

/-- Go zero value dynamic.UDPService{}. -/
def emptyUDPService : UDPService := { loadBalancer := none }

/-- Go zero value dynamic.UDPServer{}. -/
def emptyUDPServer : UDPServer := { address := "", port := "" }

/-- The fresh aggregate configuration built at the top of generateConfiguration:
all maps empty. -/
def emptyConfiguration : Configuration :=
  { http := { routers := [], services := [], middlewares := [] },
    tcp := { routers := [], services := [] },
    udp := { routers := [], services := [] } }

end Dynamic

/-- Bool test that one character list is a front segment of another, modelling
strings.HasPrefix at the character level. -/
def charsHavePfx : List Char → List Char → Bool
  | [], _ => true
  | _ :: _, [] => false
  | p :: ps, c :: cs => p == c && charsHavePfx ps cs

/-- The identifier extracted from a matching label key: the key with the
prefix removed, cut at the first dot. In the Go source this is
strings.Split(k[len(prefix):], ".") followed by taking parts[0]; since
strings.Split never returns an empty slice, the len(parts) > 0 guard always
passes and the result is exactly the segment before the first dot. -/
def keyElement (pfx : List Char) (k : String) : String :=
  String.mk ((k.data.drop pfx.length).takeWhile (fun c => c != '.'))

/-- Whether a label key starts with the element prefix (strings.HasPrefix). -/
def isElementKey (pfx : List Char) (k : String) : Bool :=
  charsHavePfx pfx k.data

/-- The key-collection loop of getDefinedElements: scan the label entries,
collecting the identifier of every matching key into a duplicate-free list.
The Go source collects into a set (map[string]struct\x7b\x7d); we fix
first-seen order as the deterministic iteration order. -/
def getDefinedElementsAux (pfx : List Char) :
    List (String × String) → List String → List String
  | [], acc => acc
  | kv :: rest, acc =>
    if isElementKey pfx kv.1 then
      (if keyElement pfx kv.1 ∈ acc then getDefinedElementsAux pfx rest acc
       else getDefinedElementsAux pfx rest (acc ++ [keyElement pfx kv.1]))
    else getDefinedElementsAux pfx rest acc

/-- getDefinedElements from the source: all uniquely named routers or services
declared in the labels under the prefix traefik.<proto>.<elemType>. -/
def getDefinedElements (labels : List (String × String))
    (proto elemType : String) : List String :=
  getDefinedElementsAux ("traefik." ++ proto ++ "." ++ elemType ++ ".").data
    labels []

/-- The default identifier fmt.Sprintf of name and id used for synthesized
routers and services. -/
def defaultID (service : Internal.Service) : String :=
  service.name ++ "-" ++ toString service.id

/-- The address-scanning loop of getServiceIP over the reported addresses. -/
def getServiceIPLoop (service : Internal.Service) (nodeName : String) :
    List Internal.IP → String
  | [] => service.name ++ "." ++ nodeName
  | ip :: rest =>
    if ip.address != "" && ip.address != "127.0.0.1" then ip.address
    else getServiceIPLoop service nodeName rest

/-- getServiceIP from the source: the first reported address that is non-empty
and not 127.0.0.1, else the DNS-style fallback name.<node>. -/
def getServiceIP (service : Internal.Service) (nodeName : String) : String :=
  getServiceIPLoop service nodeName service.ips

/-- buildServerURL from the source: scheme and port defaults, the https hint,
the port hint override, and the resolved host. -/
def buildServerURL (service : Internal.Service) (server : Dynamic.Server)
    (nodeName : String) : String :=
  let scheme := "http"
  let port := "80"
  let scheme2 := if server.scheme = "https" then "https" else scheme
  let port2 := if server.scheme = "https" then "443" else port
  let port3 := if server.port ≠ "" then server.port else port2
  let ip := getServiceIP service nodeName
  scheme2 ++ "://" ++ ip ++ ":" ++ port3

/-- buildStreamServerAddress from the source: host:port for TCP/UDP servers. -/
def buildStreamServerAddress (service : Internal.Service) (nodeName : String)
    (port : String) : String :=
  getServiceIP service nodeName ++ ":" ++ port

/-- The per-router enrichment body of the HTTP router loop: link to the first
discovered service if unset, default rule, default priority. -/
def enrichHTTPRouter (service : Internal.Service)
    (definedServices : List String) (r : Dynamic.Router) : Dynamic.Router :=
  let r := if r.service = "" ∧ 0 < definedServices.length then
    { r with service := definedServices.headD "" } else r
  let r := if r.rule = "" then
    { r with rule := "Host(`" ++ service.name ++ "`)" } else r
  if r.priority = none then { r with priority := some 1 } else r

/-- The per-server resolution step of the HTTP service loop: fill in the URL
for any server that lacks one. -/
def resolveHTTPServer (service : Internal.Service) (nodeName : String)
    (server : Dynamic.Server) : Dynamic.Server :=
  if server.url = "" then
    { server with url := buildServerURL service server nodeName }
  else server

/-- The per-service enrichment body of the HTTP service loop: ensure a load
balancer, default pass-host-header, at least one server, resolve URLs. -/
def enrichHTTPService (service : Internal.Service) (nodeName : String)
    (s : Dynamic.Service) : Dynamic.Service :=
  let lb := match s.loadBalancer with
    | none => ({ passHostHeader := none, servers := [] } :
        Dynamic.ServersLoadBalancer)
    | some lb => lb
  let lb := if lb.passHostHeader = none then
    { lb with passHostHeader := some true } else lb
  let lb := if lb.servers.length = 0 then
    { lb with servers := [Dynamic.emptyServer] } else lb
  let lb :=
    { lb with servers := lb.servers.map (resolveHTTPServer service nodeName) }
  { s with loadBalancer := some lb }

/-- The shared shape of the enrichment loops: for each discovered name, skip
when the entry is absent from the map, otherwise enrich it in place. -/
def enrichElements {α : Type} (enrich : α → α) (names : List String)
    (m : List (String × α)) : List (String × α) :=
  names.foldl (fun acc n =>
    match lookupA acc n with
    | none => acc
    | some v => insertA acc n (enrich v)) m

/-- buildHTTPConfiguration from the source: create a default router and a
default service when none are declared, then enrich every declared one. -/
def buildHTTPConfiguration (httpConfig : Dynamic.HTTPConfiguration)
    (service : Internal.Service) (nodeName : String) :
    Dynamic.HTTPConfiguration :=
  let dID := defaultID service
  let definedRouters := getDefinedElements service.config "http" "routers"
  let definedServices := getDefinedElements service.config "http" "services"
  let routers0 := if definedRouters.length = 0 then
    insertA httpConfig.routers dID Dynamic.emptyRouter else httpConfig.routers
  let definedRouters2 := if definedRouters.length = 0 then
    definedRouters ++ [dID] else definedRouters
  let services0 := if definedServices.length = 0 then
    insertA httpConfig.services dID Dynamic.emptyService
    else httpConfig.services
  let definedServices2 := if definedServices.length = 0 then
    definedServices ++ [dID] else definedServices
  let routers := enrichElements (enrichHTTPRouter service definedServices2)
    definedRouters2 routers0
  let services := enrichElements (enrichHTTPService service nodeName)
    definedServices2 services0
  { routers := routers, services := services,
    middlewares := httpConfig.middlewares }

/-- The per-router enrichment body of the TCP router loop: service link,
default priority, default HostSNI rule. -/
def enrichTCPRouter (definedServices : List String) (r : Dynamic.TCPRouter) :
    Dynamic.TCPRouter :=
  let r := if r.service = "" ∧ 0 < definedServices.length then
    { r with service := definedServices.headD "" } else r
  let r := if r.priority = none then { r with priority := some 1 } else r
  if r.rule = "" then { r with rule := "HostSNI(`*`)" } else r

/-- The per-server resolution step of the TCP service loop: an already set
address is kept; without a port hint the address stays empty (warning only);
otherwise the stream address is built. -/
def resolveTCPServer (service : Internal.Service) (nodeName : String)
    (server : Dynamic.TCPServer) : Dynamic.TCPServer :=
  if server.address = "" then
    (if server.port = "" then server
     else { server with
       address := buildStreamServerAddress service nodeName server.port })
  else server

/-- The per-service enrichment body of the TCP service loop. -/
def enrichTCPService (service : Internal.Service) (nodeName : String)
    (s : Dynamic.TCPService) : Dynamic.TCPService :=
  let lb := match s.loadBalancer with
    | none => ({ servers := [] } : Dynamic.TCPServersLoadBalancer)
    | some lb => lb
  let lb := if lb.servers.length = 0 then
    { lb with servers := [Dynamic.emptyTCPServer] } else lb
  let lb :=
    { lb with servers := lb.servers.map (resolveTCPServer service nodeName) }
  { s with loadBalancer := some lb }

/-- buildTCPConfiguration from the source: a default service is created only
when routers were declared and no services were, then enrichment runs. -/
def buildTCPConfiguration (tcpConfig : Dynamic.TCPConfiguration)
    (service : Internal.Service) (nodeName : String) :
    Dynamic.TCPConfiguration :=
  let dID := defaultID service
  let definedRouters := getDefinedElements service.config "tcp" "routers"
  let definedServices := getDefinedElements service.config "tcp" "services"
  let services0 :=
    if 0 < definedRouters.length ∧ definedServices.length = 0 then
      insertA tcpConfig.services dID Dynamic.emptyTCPService
    else tcpConfig.services
  let definedServices2 :=
    if 0 < definedRouters.length ∧ definedServices.length = 0 then
      definedServices ++ [dID] else definedServices
  let routers := enrichElements (enrichTCPRouter definedServices2)
    definedRouters tcpConfig.routers
  let services := enrichElements (enrichTCPService service nodeName)
    definedServices2 services0
  { routers := routers, services := services }

/-- The per-router enrichment body of the UDP router loop: only the service
link is defaulted. -/
def enrichUDPRouter (definedServices : List String) (r : Dynamic.UDPRouter) :
    Dynamic.UDPRouter :=
  if r.service = "" ∧ 0 < definedServices.length then
    { r with service := definedServices.headD "" } else r

/-- The per-server resolution step of the UDP service loop. -/
def resolveUDPServer (service : Internal.Service) (nodeName : String)
    (server : Dynamic.UDPServer) : Dynamic.UDPServer :=
  if server.address = "" then
    (if server.port = "" then server
     else { server with
       address := buildStreamServerAddress service nodeName server.port })
  else server

/-- The per-service enrichment body of the UDP service loop. -/
def enrichUDPService (service : Internal.Service) (nodeName : String)
    (s : Dynamic.UDPService) : Dynamic.UDPService :=
  let lb := match s.loadBalancer with
    | none => ({ servers := [] } : Dynamic.UDPServersLoadBalancer)
    | some lb => lb
  let lb := if lb.servers.length = 0 then
    { lb with servers := [Dynamic.emptyUDPServer] } else lb
  let lb :=
    { lb with servers := lb.servers.map (resolveUDPServer service nodeName) }
  { s with loadBalancer := some lb }

/-- buildUDPConfiguration from the source: same default-service policy as TCP,
no rule or priority enrichment on routers. -/
def buildUDPConfiguration (udpConfig : Dynamic.UDPConfiguration)
    (service : Internal.Service) (nodeName : String) :
    Dynamic.UDPConfiguration :=
  let dID := defaultID service
  let definedRouters := getDefinedElements service.config "udp" "routers"
  let definedServices := getDefinedElements service.config "udp" "services"
  let services0 :=
    if 0 < definedRouters.length ∧ definedServices.length = 0 then
      insertA udpConfig.services dID Dynamic.emptyUDPService
    else udpConfig.services
  let definedServices2 :=
    if 0 < definedRouters.length ∧ definedServices.length = 0 then
      definedServices ++ [dID] else definedServices
  let routers := enrichElements (enrichUDPRouter definedServices2)
    definedRouters udpConfig.routers
  let services := enrichElements (enrichUDPService service nodeName)
    definedServices2 services0
  { routers := routers, services := services }

/-- Modelled from the spec: the external label decoder (the generic parser
consumed as an external capability). Given one workload label mapping and the
aggregate configuration it either returns the merged aggregate or fails with
a decode error, modelled as none. -/
def DecodeFn : Type :=
  List (String × String) → Dynamic.Configuration → Option Dynamic.Configuration

/-- The per-workload body of generateConfiguration: decode the labels into the
aggregate; on failure keep the aggregate and skip this workload; on success
run the HTTP, TCP and UDP synthesizers in that fixed order. -/
def processService (decode : DecodeFn) (nodeName : String)
    (config : Dynamic.Configuration) (service : Internal.Service) :
    Dynamic.Configuration :=
  match decode service.config config with
  | none => config
  | some c =>
    let c1 := { c with http := buildHTTPConfiguration c.http service nodeName }
    let c2 := { c1 with tcp := buildTCPConfiguration c1.tcp service nodeName }
    { c2 with udp := buildUDPConfiguration c2.udp service nodeName }

/-- generateConfiguration from the source: start from the fresh empty
aggregate and fold every workload of every node into it. -/
def generateConfiguration (decode : DecodeFn)
    (servicesMap : List (String × List Internal.Service)) :
    Dynamic.Configuration :=
  servicesMap.foldl
    (fun config entry => entry.2.foldl (processService decode entry.1) config)
    Dynamic.emptyConfiguration

/-- Modelled from the spec and source: one workload as enumerated by the
cluster client, with the outcomes of the per-workload label fetch and the
network-address fetch; none models a failed client call. The config field
holds the already extracted traefik label mapping. -/
structure WorkloadScan where
  vmid : Nat
  name : String
  status : String
  config : Option (List (String × String))
  addressReport : Option (List Internal.IP)
deriving DecidableEq

/-- internal.NewService plus the conditional address assignment: the reported
addresses are attached only when the address fetch succeeded. -/
def serviceOfScan (w : WorkloadScan) (cfg : List (String × String)) :
    Internal.Service :=
  { id := w.vmid, name := w.name, config := cfg,
    ips := match w.addressReport with
      | none => []
      | some ips => ips }

/-- The virtual-machine half of scanServices. The source checks the
traefik.enable gate and logs a skip message for a failing VM, but the check
has no continue statement, so the VM is appended regardless. -/
def scanVMs : List WorkloadScan → List Internal.Service
  | [] => []
  | w :: rest =>
    if w.status = "running" then
      match w.config with
      | none => scanVMs rest
      | some cfg => serviceOfScan w cfg :: scanVMs rest
    else scanVMs rest

/-- The container half of scanServices: a container whose labels do not map
traefik.enable to true is skipped. A missing key reads as the empty string,
as Go map access does. -/
def scanContainers : List WorkloadScan → List Internal.Service
  | [] => []
  | w :: rest =>
    if w.status = "running" then
      match w.config with
      | none => scanContainers rest
      | some cfg =>
        if (lookupA cfg "traefik.enable").getD "" ≠ "true" then
          scanContainers rest
        else serviceOfScan w cfg :: scanContainers rest
    else scanContainers rest

/-- scanServices from the source: scan virtual machines, then containers. -/
def scanServices (vms cts : List WorkloadScan) : List Internal.Service :=
  scanVMs vms ++ scanContainers cts

/-! ### Association-list lemmas -/

lemma lookupA_insertA {α : Type} (l : List (String × α)) (k k2 : String)
    (v : α) :
    lookupA (insertA l k v) k2 = if k = k2 then some v else lookupA l k2 := by
  induction l with
  | nil =>
    simp only [insertA, lookupA]
  | cons kv rest ih =>
    simp only [insertA]
    by_cases h : kv.1 = k
    · subst h
      simp only [if_pos rfl, lookupA]
      by_cases h2 : kv.1 = k2 <;> simp [h2]
    · simp only [if_neg h, lookupA, ih]
      by_cases h2 : kv.1 = k2
      · have hk : ¬k = k2 := fun e => h (by rw [h2, e])
        simp [h2, hk]
      · simp [h2]

lemma insertA_of_lookupA_none {α : Type} (l : List (String × α)) (k : String)
    (v : α) (h : lookupA l k = none) : insertA l k v = l ++ [(k, v)] := by
  induction l with
  | nil => simp [insertA]
  | cons kv rest ih =>
    simp only [lookupA] at h
    by_cases h1 : kv.1 = k
    · simp [h1] at h
    · simp only [insertA, if_neg h1, List.cons_append]
      rw [ih (by simpa [h1] using h)]

lemma insertA_insertA {α : Type} (l : List (String × α)) (k : String)
    (v w : α) : insertA (insertA l k v) k w = insertA l k w := by
  induction l with
  | nil => simp [insertA]
  | cons kv rest ih =>
    by_cases h1 : kv.1 = k
    · simp [insertA, h1]
    · simp [insertA, h1, ih]

/-! ### Enrichment-loop lemmas -/

lemma enrichElements_cons {α : Type} (f : α → α) (n : String)
    (names : List String) (m : List (String × α)) :
    enrichElements f (n :: names) m =
      enrichElements f names
        (match lookupA m n with
         | none => m
         | some v => insertA m n (f v)) := rfl

lemma enrichElements_nil {α : Type} (f : α → α) (m : List (String × α)) :
    enrichElements f [] m = m := rfl

lemma enrichElements_lookupA_none {α : Type} (f : α → α)
    (names : List String) (m : List (String × α)) (d : String)
    (h : lookupA m d = none) :
    lookupA (enrichElements f names m) d = none := by
  induction names generalizing m with
  | nil => simpa [enrichElements] using h
  | cons n rest ih =>
    rw [enrichElements_cons]
    cases hn : lookupA m n with
    | none => exact ih m h
    | some v =>
      have hnd : ¬n = d := by
        intro e
        rw [e, h] at hn
        exact Option.noConfusion hn
      refine ih _ ?_
      rw [lookupA_insertA]
      simp [hnd, h]

lemma enrichElements_lookupA_isSome {α : Type} (f : α → α)
    (names : List String) (m : List (String × α)) (d : String)
    (h : (lookupA m d).isSome = true) :
    (lookupA (enrichElements f names m) d).isSome = true := by
  induction names generalizing m with
  | nil => simpa [enrichElements] using h
  | cons n rest ih =>
    rw [enrichElements_cons]
    cases hn : lookupA m n with
    | none => exact ih m h
    | some v =>
      refine ih _ ?_
      rw [lookupA_insertA]
      by_cases e : n = d
      · simp [e]
      · simpa [e] using h

lemma enrichElements_singleton {α : Type} (f : α → α) (d : String)
    (m : List (String × α)) (v : α) (h : lookupA m d = some v) :
    enrichElements f [d] m = insertA m d (f v) := by
  rw [enrichElements_cons, h]
  rfl

/-! ### Element-discovery lemmas -/

lemma mem_getDefinedElementsAux (pfx : List Char)
    (labels : List (String × String)) (acc : List String) (x : String) :
    x ∈ getDefinedElementsAux pfx labels acc ↔
      x ∈ acc ∨ ∃ kv, kv ∈ labels ∧ isElementKey pfx kv.1 = true ∧
        keyElement pfx kv.1 = x := by
  induction labels generalizing acc with
  | nil => simp [getDefinedElementsAux]
  | cons kv rest ih =>
    simp only [getDefinedElementsAux]
    by_cases hk : isElementKey pfx kv.1 = true
    · rw [if_pos hk]
      by_cases hm : keyElement pfx kv.1 ∈ acc
      · rw [if_pos hm, ih]
        constructor
        · rintro (h | ⟨kv2, hmem, h2, h3⟩)
          · exact Or.inl h
          · exact Or.inr ⟨kv2, List.mem_cons_of_mem _ hmem, h2, h3⟩
        · rintro (h | ⟨kv2, hmem, h2, h3⟩)
          · exact Or.inl h
          · rcases List.mem_cons.mp hmem with he | hr
            · subst he
              exact Or.inl (h3 ▸ hm)
            · exact Or.inr ⟨kv2, hr, h2, h3⟩
      · rw [if_neg hm, ih]
        constructor
        · rintro (h | ⟨kv2, hmem, h2, h3⟩)
          · rcases List.mem_append.mp h with ha | hs
            · exact Or.inl ha
            · have hx : x = keyElement pfx kv.1 := by simpa using hs
              exact Or.inr ⟨kv, List.mem_cons_self _ _, hk, hx.symm⟩
          · exact Or.inr ⟨kv2, List.mem_cons_of_mem _ hmem, h2, h3⟩
        · rintro (h | ⟨kv2, hmem, h2, h3⟩)
          · exact Or.inl (List.mem_append.mpr (Or.inl h))
          · rcases List.mem_cons.mp hmem with he | hr
            · subst he
              exact Or.inl (List.mem_append.mpr (Or.inr (by simp [h3])))
            · exact Or.inr ⟨kv2, hr, h2, h3⟩
    · rw [if_neg hk, ih]
      constructor
      · rintro (h | ⟨kv2, hmem, h2, h3⟩)
        · exact Or.inl h
        · exact Or.inr ⟨kv2, List.mem_cons_of_mem _ hmem, h2, h3⟩
      · rintro (h | ⟨kv2, hmem, h2, h3⟩)
        · exact Or.inl h
        · rcases List.mem_cons.mp hmem with he | hr
          · subst he
            exact absurd h2 hk
          · exact Or.inr ⟨kv2, hr, h2, h3⟩

lemma nodup_getDefinedElementsAux (pfx : List Char)
    (labels : List (String × String)) (acc : List String)
    (h : acc.Nodup) : (getDefinedElementsAux pfx labels acc).Nodup := by
  induction labels generalizing acc with
  | nil => simpa [getDefinedElementsAux] using h
  | cons kv rest ih =>
    simp only [getDefinedElementsAux]
    by_cases hk : isElementKey pfx kv.1 = true
    · rw [if_pos hk]
      by_cases hm : keyElement pfx kv.1 ∈ acc
      · rw [if_pos hm]
        exact ih acc h
      · rw [if_neg hm]
        refine ih _ ?_
        simp [List.nodup_append, h, hm]
    · rw [if_neg hk]
      exact ih acc h

/-! ### Address-resolution lemma -/

lemma getServiceIPLoop_eq_find (service : Internal.Service)
    (nodeName : String) (ips : List Internal.IP) :
    getServiceIPLoop service nodeName ips =
      match ips.find?
          (fun ip => ip.address != "" && ip.address != "127.0.0.1") with
      | some ip => ip.address
      | none => service.name ++ "." ++ nodeName := by
  induction ips with
  | nil => rfl
  | cons ip rest ih =>
    by_cases h : (ip.address != "" && ip.address != "127.0.0.1") = true
    · rw [getServiceIPLoop, if_pos h,
        @List.find?_cons_of_pos _
          (fun ip => ip.address != "" && ip.address != "127.0.0.1") ip rest h]
    · rw [getServiceIPLoop, if_neg h,
        @List.find?_cons_of_neg _
          (fun ip => ip.address != "" && ip.address != "127.0.0.1") ip rest
          (by simpa using h), ih]

/-! ### Concrete values used by witnesses -/

/-- A concrete workload with one valid reported address, used by witnesses. -/
def svcW : Internal.Service :=
  { id := 7, name := "web", config := [],
    ips := [{ address := "10.0.0.5", addressType := "ipv4" }] }

/-! ### Claim theorems -/

/-- Claim C3: getServiceIP returns the first reported address that is
non-empty and not 127.0.0.1; if no address qualifies, the empty list
included, it returns the DNS-style name <workload-name>.<node-name> and the
call still succeeds. -/
theorem getServiceIP_resolves_first_valid :
    (∀ (service : Internal.Service) (nodeName : String),
      getServiceIP service nodeName =
        match service.ips.find?
            (fun ip => ip.address != "" && ip.address != "127.0.0.1") with
        | some ip => ip.address
        | none => service.name ++ "." ++ nodeName) ∧
    getServiceIP
      { id := 1, name := "web", config := [],
        ips := [{ address := "127.0.0.1", addressType := "ipv4" },
                { address := "10.0.0.5", addressType := "ipv4" }] } "pve" =
      "10.0.0.5" ∧
    getServiceIP { id := 1, name := "web", config := [], ips := [] } "pve" =
      "web.pve" := by
  refine ⟨fun service nodeName => ?_, by decide, by decide⟩
  exact getServiceIPLoop_eq_find service nodeName service.ips

/-- Claim C4: buildServerURL uses scheme http and port 80 by default,
switches to https and port 443 exactly when the scheme hint equals https,
treats any other scheme hint as the default without error, and lets a
non-empty port hint override the port chosen by the scheme; the result is
scheme://resolved-host:port. -/
theorem buildServerURL_scheme_port_defaults :
    (∀ (service : Internal.Service) (server : Dynamic.Server)
        (nodeName : String),
      buildServerURL service server nodeName =
        (if server.scheme = "https" then "https" else "http") ++ "://" ++
          getServiceIP service nodeName ++ ":" ++
          (if server.port ≠ "" then server.port
           else if server.scheme = "https" then "443" else "80")) ∧
    buildServerURL svcW { url := "", scheme := "https", port := "" } "pve" =
      "https://10.0.0.5:443" ∧
    buildServerURL svcW { url := "", scheme := "", port := "8080" } "pve" =
      "http://10.0.0.5:8080" := by
  refine ⟨fun service server nodeName => ?_, by decide, by decide⟩
  simp only [buildServerURL]

/-- Claim C5: element discovery returns exactly the identifiers occurring as
the first path segment after the prefix traefik.<protocol>.<elementType>.
among the label keys, each identifier at most once however many keys share
it; the two myrouter keys yield the single identifier myrouter. -/
theorem getDefinedElements_unique_first_segments :
    (∀ (labels : List (String × String)) (proto elemType : String),
      (getDefinedElements labels proto elemType).Nodup ∧
      (∀ x, x ∈ getDefinedElements labels proto elemType ↔
        ∃ kv, kv ∈ labels ∧
          isElementKey ("traefik." ++ proto ++ "." ++ elemType ++ ".").data
            kv.1 = true ∧
          keyElement ("traefik." ++ proto ++ "." ++ elemType ++ ".").data
            kv.1 = x)) ∧
    getDefinedElements
      [("traefik.http.routers.myrouter.rule", "r"),
       ("traefik.http.routers.myrouter.service", "s")] "http" "routers" =
      ["myrouter"] := by
  refine ⟨fun labels proto elemType => ⟨?_, fun x => ?_⟩, by decide⟩
  · exact nodup_getDefinedElementsAux _ _ _ List.nodup_nil
  · have h := mem_getDefinedElementsAux
      ("traefik." ++ proto ++ "." ++ elemType ++ ".").data labels [] x
    simpa [getDefinedElements] using h

/-- Claim C7: a TCP or UDP server whose address is already non-empty before
enrichment keeps exactly that address, even when a non-empty port hint is
also present; resolveTCPServer and resolveUDPServer are the per-server
enrichment steps applied by buildTCPConfiguration and buildUDPConfiguration. -/
theorem resolve_preserves_existing_address
    (service : Internal.Service) (nodeName : String)
    (t : Dynamic.TCPServer) (u : Dynamic.UDPServer) :
    (t.address ≠ "" → resolveTCPServer service nodeName t = t) ∧
    (u.address ≠ "" → resolveUDPServer service nodeName u = u) := by
  constructor <;> intro h
  · simp [resolveTCPServer, h]
  · simp [resolveUDPServer, h]

/-- Witness for C7 at a concrete server carrying both an address and a port
hint. -/
theorem resolve_preserves_existing_address_witness :
    resolveTCPServer svcW "pve" { address := "10.9.9.9:5432", port := "9000" }
      = { address := "10.9.9.9:5432", port := "9000" } ∧
    resolveUDPServer svcW "pve" { address := "10.9.9.9:53", port := "5353" }
      = { address := "10.9.9.9:53", port := "5353" } :=
  ⟨(resolve_preserves_existing_address svcW "pve"
      { address := "10.9.9.9:5432", port := "9000" }
      { address := "10.9.9.9:53", port := "5353" }).1 (by decide),
   (resolve_preserves_existing_address svcW "pve"
      { address := "10.9.9.9:5432", port := "9000" }
      { address := "10.9.9.9:53", port := "5353" }).2 (by decide)⟩

/-- Claim C8: a TCP or UDP server lacking both an address and a port hint
keeps an empty address after enrichment, and the enclosing service-level
enrichment still completes normally, processing the remaining servers. -/
theorem empty_port_leaves_address_empty
    (service : Internal.Service) (nodeName : String)
    (t : Dynamic.TCPServer) (u : Dynamic.UDPServer)
    (restT : List Dynamic.TCPServer) (restU : List Dynamic.UDPServer) :
    (t.address = "" → t.port = "" →
      resolveTCPServer service nodeName t = t ∧
      enrichTCPService service nodeName
          { loadBalancer := some { servers := t :: restT } } =
        { loadBalancer := some
            { servers := t :: restT.map (resolveTCPServer service nodeName) } }) ∧
    (u.address = "" → u.port = "" →
      resolveUDPServer service nodeName u = u ∧
      enrichUDPService service nodeName
          { loadBalancer := some { servers := u :: restU } } =
        { loadBalancer := some
            { servers := u :: restU.map (resolveUDPServer service nodeName) } }) := by
  constructor <;> intro h1 h2
  · have hr : resolveTCPServer service nodeName t = t := by
      simp [resolveTCPServer, h1, h2]
    exact ⟨hr, by simp [enrichTCPService, hr]⟩
  · have hr : resolveUDPServer service nodeName u = u := by
      simp [resolveUDPServer, h1, h2]
    exact ⟨hr, by simp [enrichUDPService, hr]⟩

/-- A TCP server with neither address nor port hint, used by witnesses. -/
def tcpNoPort : Dynamic.TCPServer := { address := "", port := "" }

/-- A TCP server with only a port hint, used by witnesses. -/
def tcpWithPort : Dynamic.TCPServer := { address := "", port := "8080" }

/-- A UDP server with neither address nor port hint, used by witnesses. -/
def udpNoPort : Dynamic.UDPServer := { address := "", port := "" }

/-- Witness for C8: a portless server stays address-less while the following
server in the same service is still processed. -/
theorem empty_port_leaves_address_empty_witness :
    enrichTCPService svcW "pve"
        { loadBalancer := some { servers := [tcpNoPort, tcpWithPort] } } =
      { loadBalancer := some
          { servers := tcpNoPort ::
              List.map (resolveTCPServer svcW "pve") [tcpWithPort] } } ∧
    enrichUDPService svcW "pve"
        { loadBalancer := some { servers := [udpNoPort] } } =
      { loadBalancer := some
          { servers := udpNoPort ::
              List.map (resolveUDPServer svcW "pve") [] } } :=
  ⟨((empty_port_leaves_address_empty svcW "pve" tcpNoPort udpNoPort
      [tcpWithPort] []).1 rfl rfl).2,
   ((empty_port_leaves_address_empty svcW "pve" tcpNoPort udpNoPort
      [tcpWithPort] []).2 rfl rfl).2⟩

lemma buildServerURL_default (service : Internal.Service)
    (nodeName : String) :
    buildServerURL service Dynamic.emptyServer nodeName =
      "http://" ++ getServiceIP service nodeName ++ ":80" := by
  have e1 : ("http" : String) ++ "://" = "http://" := rfl
  have e2 : (":" : String) ++ "80" = ":80" := rfl
  simp only [buildServerURL, Dynamic.emptyServer]
  rw [if_neg (by decide), if_neg (by decide), if_neg (by decide)]
  conv_lhs => rw [String.append_assoc]
  rw [e1, e2]

/-- Claim C1: for a workload whose labels declare no HTTP routers and no HTTP
services, the HTTP synthesizer adds exactly one router and one service, both
keyed <workload-name>-<workload-id>; the router has rule Host(`<name>`),
priority 1 and references that service, and the service passes the host
header and holds one server with URL http://<resolved-host>:80, the default
server carrying no scheme or port hint. -/
theorem buildHTTPConfiguration_default_synthesis
    (cfg : Dynamic.HTTPConfiguration) (service : Internal.Service)
    (nodeName : String)
    (hr : getDefinedElements service.config "http" "routers" = [])
    (hs : getDefinedElements service.config "http" "services" = [])
    (fr : lookupA cfg.routers (defaultID service) = none)
    (fs : lookupA cfg.services (defaultID service) = none) :
    (buildHTTPConfiguration cfg service nodeName).routers =
      cfg.routers ++ [(defaultID service,
        { service := defaultID service,
          rule := "Host(`" ++ service.name ++ "`)",
          priority := some 1 })] ∧
    (buildHTTPConfiguration cfg service nodeName).services =
      cfg.services ++ [(defaultID service,
        { loadBalancer := some
            { passHostHeader := some true,
              servers :=
                [{ url := "http://" ++ getServiceIP service nodeName ++ ":80",
                   scheme := "", port := "" }] } })] ∧
    (buildHTTPConfiguration cfg service nodeName).middlewares =
      cfg.middlewares := by
  have key : buildHTTPConfiguration cfg service nodeName =
      { routers := enrichElements
          (enrichHTTPRouter service [defaultID service]) [defaultID service]
          (insertA cfg.routers (defaultID service) Dynamic.emptyRouter),
        services := enrichElements
          (enrichHTTPService service nodeName) [defaultID service]
          (insertA cfg.services (defaultID service) Dynamic.emptyService),
        middlewares := cfg.middlewares } := by
    simp [buildHTTPConfiguration, hr, hs]
  have lr : lookupA
      (insertA cfg.routers (defaultID service) Dynamic.emptyRouter)
      (defaultID service) = some Dynamic.emptyRouter := by
    rw [lookupA_insertA]
    simp
  have ls : lookupA
      (insertA cfg.services (defaultID service) Dynamic.emptyService)
      (defaultID service) = some Dynamic.emptyService := by
    rw [lookupA_insertA]
    simp
  have er : enrichHTTPRouter service [defaultID service] Dynamic.emptyRouter =
      { service := defaultID service,
        rule := "Host(`" ++ service.name ++ "`)", priority := some 1 } := by
    simp [enrichHTTPRouter, Dynamic.emptyRouter]
  have es : enrichHTTPService service nodeName Dynamic.emptyService =
      { loadBalancer := some
          { passHostHeader := some true,
            servers :=
              [{ url := "http://" ++ getServiceIP service nodeName ++ ":80",
                 scheme := "", port := "" }] } } := by
    have hu : Dynamic.emptyServer.url = "" := rfl
    have hsc : Dynamic.emptyServer.scheme = "" := rfl
    have hp : Dynamic.emptyServer.port = "" := rfl
    simp [enrichHTTPService, Dynamic.emptyService, resolveHTTPServer, hu,
      hsc, hp, buildServerURL_default]
  rw [key]
  refine ⟨?_, ?_, rfl⟩
  · show enrichElements _ _ _ = _
    rw [enrichElements_singleton _ _ _ _ lr, er, insertA_insertA,
      insertA_of_lookupA_none _ _ _ fr]
  · show enrichElements _ _ _ = _
    rw [enrichElements_singleton _ _ _ _ ls, es, insertA_insertA,
      insertA_of_lookupA_none _ _ _ fs]

/-- An empty HTTP configuration used by witnesses. -/
def httpCfgW : Dynamic.HTTPConfiguration :=
  { routers := [], services := [], middlewares := [] }

/-- Witness for C1 at a concrete label-free workload over the empty HTTP
configuration. -/
theorem buildHTTPConfiguration_default_synthesis_witness :
    (buildHTTPConfiguration httpCfgW svcW "pve").routers =
      httpCfgW.routers ++ [(defaultID svcW,
        { service := defaultID svcW,
          rule := "Host(`" ++ svcW.name ++ "`)",
          priority := some 1 })] ∧
    (buildHTTPConfiguration httpCfgW svcW "pve").services =
      httpCfgW.services ++ [(defaultID svcW,
        { loadBalancer := some
            { passHostHeader := some true,
              servers :=
                [{ url := "http://" ++ getServiceIP svcW "pve" ++ ":80",
                   scheme := "", port := "" }] } })] ∧
    (buildHTTPConfiguration httpCfgW svcW "pve").middlewares =
      httpCfgW.middlewares :=
  buildHTTPConfiguration_default_synthesis httpCfgW svcW "pve" rfl rfl rfl rfl

/-- Claim C2: the TCP and UDP synthesizers create the default service keyed
<workload-name>-<workload-id> exactly when at least one router identifier
and zero service identifiers were discovered for that protocol, and a
workload with neither router nor service labels for the protocol leaves the
whole protocol configuration untouched. -/
theorem stream_default_service_policy
    (tcp : Dynamic.TCPConfiguration) (udp : Dynamic.UDPConfiguration)
    (service : Internal.Service) (nodeName : String)
    (ft : lookupA tcp.services (defaultID service) = none)
    (fu : lookupA udp.services (defaultID service) = none) :
    ((lookupA (buildTCPConfiguration tcp service nodeName).services
        (defaultID service)).isSome = true ↔
      (getDefinedElements service.config "tcp" "routers" ≠ [] ∧
        getDefinedElements service.config "tcp" "services" = [])) ∧
    ((lookupA (buildUDPConfiguration udp service nodeName).services
        (defaultID service)).isSome = true ↔
      (getDefinedElements service.config "udp" "routers" ≠ [] ∧
        getDefinedElements service.config "udp" "services" = [])) ∧
    (getDefinedElements service.config "tcp" "routers" = [] →
      getDefinedElements service.config "tcp" "services" = [] →
      buildTCPConfiguration tcp service nodeName = tcp) ∧
    (getDefinedElements service.config "udp" "routers" = [] →
      getDefinedElements service.config "udp" "services" = [] →
      buildUDPConfiguration udp service nodeName = udp) := by
  refine ⟨?_, ?_, ?_, ?_⟩
  · by_cases hc :
        0 < (getDefinedElements service.config "tcp" "routers").length ∧
        (getDefinedElements service.config "tcp" "services").length = 0
    · refine iff_of_true ?_
        ⟨List.length_pos.mp hc.1, List.length_eq_zero.mp hc.2⟩
      simp only [buildTCPConfiguration, if_pos hc]
      refine enrichElements_lookupA_isSome _ _ _ _ ?_
      rw [lookupA_insertA]
      simp
    · refine iff_of_false ?_ fun h =>
        hc ⟨List.length_pos.mpr h.1, List.length_eq_zero.mpr h.2⟩
      have hnone : lookupA
          (buildTCPConfiguration tcp service nodeName).services
          (defaultID service) = none := by
        simp only [buildTCPConfiguration, if_neg hc]
        exact enrichElements_lookupA_none _ _ _ _ ft
      simp [hnone]
  · by_cases hc :
        0 < (getDefinedElements service.config "udp" "routers").length ∧
        (getDefinedElements service.config "udp" "services").length = 0
    · refine iff_of_true ?_
        ⟨List.length_pos.mp hc.1, List.length_eq_zero.mp hc.2⟩
      simp only [buildUDPConfiguration, if_pos hc]
      refine enrichElements_lookupA_isSome _ _ _ _ ?_
      rw [lookupA_insertA]
      simp
    · refine iff_of_false ?_ fun h =>
        hc ⟨List.length_pos.mpr h.1, List.length_eq_zero.mpr h.2⟩
      have hnone : lookupA
          (buildUDPConfiguration udp service nodeName).services
          (defaultID service) = none := by
        simp only [buildUDPConfiguration, if_neg hc]
        exact enrichElements_lookupA_none _ _ _ _ fu
      simp [hnone]
  · intro h1 h2
    have hc :
        ¬(0 < (getDefinedElements service.config "tcp" "routers").length ∧
          (getDefinedElements service.config "tcp" "services").length = 0) := by
      simp [h1]
    simp only [buildTCPConfiguration]
    rw [if_neg hc, if_neg hc, h1, h2, enrichElements_nil, enrichElements_nil]
  · intro h1 h2
    have hc :
        ¬(0 < (getDefinedElements service.config "udp" "routers").length ∧
          (getDefinedElements service.config "udp" "services").length = 0) := by
      simp [h1]
    simp only [buildUDPConfiguration]
    rw [if_neg hc, if_neg hc, h1, h2, enrichElements_nil, enrichElements_nil]

/-- An empty TCP configuration used by witnesses. -/
def tcpCfgW : Dynamic.TCPConfiguration := { routers := [], services := [] }

/-- An empty UDP configuration used by witnesses. -/
def udpCfgW : Dynamic.UDPConfiguration := { routers := [], services := [] }

/-- A concrete workload declaring one TCP router and no TCP or UDP services,
used by witnesses. -/
def svcTCPW : Internal.Service :=
  { id := 9, name := "db",
    config := [("traefik.tcp.routers.foo.rule", "HostSNI(`*`)")], ips := [] }

/-- Witness for C2 at a concrete workload with one TCP router label and no
UDP labels, over empty TCP and UDP configurations. -/
theorem stream_default_service_policy_witness :
    ((lookupA (buildTCPConfiguration tcpCfgW svcTCPW "pve").services
        (defaultID svcTCPW)).isSome = true ↔
      (getDefinedElements svcTCPW.config "tcp" "routers" ≠ [] ∧
        getDefinedElements svcTCPW.config "tcp" "services" = [])) ∧
    ((lookupA (buildUDPConfiguration udpCfgW svcTCPW "pve").services
        (defaultID svcTCPW)).isSome = true ↔
      (getDefinedElements svcTCPW.config "udp" "routers" ≠ [] ∧
        getDefinedElements svcTCPW.config "udp" "services" = [])) ∧
    (getDefinedElements svcTCPW.config "tcp" "routers" = [] →
      getDefinedElements svcTCPW.config "tcp" "services" = [] →
      buildTCPConfiguration tcpCfgW svcTCPW "pve" = tcpCfgW) ∧
    (getDefinedElements svcTCPW.config "udp" "routers" = [] →
      getDefinedElements svcTCPW.config "udp" "services" = [] →
      buildUDPConfiguration udpCfgW svcTCPW "pve" = udpCfgW) :=
  stream_default_service_policy tcpCfgW udpCfgW svcTCPW "pve" rfl rfl

/-- The failing input for claim C6: a running virtual machine whose labels do
not map traefik.enable to true. -/
def vmGateInput : WorkloadScan :=
  { vmid := 100, name := "vm1", status := "running",
    config := some [("traefik.enable", "false")], addressReport := some [] }

/-- Claim C6 (code divergence): the enable gate is not enforced for virtual
machines. The scanner logs a skip message for vmGateInput, whose labels do
not map traefik.enable to true, yet still appends it to the service list;
the parallel container path excludes the same workload. -/
theorem scanServices_vm_enable_gate_not_enforced :
    (lookupA [("traefik.enable", "false")] "traefik.enable").getD ""
      ≠ "true" ∧
    scanServices [vmGateInput] [] =
      [serviceOfScan vmGateInput [("traefik.enable", "false")]] ∧
    scanServices [] [vmGateInput] = [] := by
  refine ⟨by decide, by decide, by decide⟩

/-- Claim C9: when the label decode of one workload fails, the assembler
keeps the aggregate built from prior workloads exactly as it was and skips
the three synthesizers for that workload only, continuing with the next
workload of the fold; on decode success the HTTP, TCP and UDP synthesizers
run in that fixed order on the decoded aggregate. -/
theorem generateConfiguration_decode_skip
    (decode : DecodeFn) (nodeName : String)
    (config : Dynamic.Configuration) (service : Internal.Service)
    (rest : List Internal.Service) :
    (decode service.config config = none →
      processService decode nodeName config service = config) ∧
    (∀ c, decode service.config config = some c →
      processService decode nodeName config service =
        { http := buildHTTPConfiguration c.http service nodeName,
          tcp := buildTCPConfiguration c.tcp service nodeName,
          udp := buildUDPConfiguration c.udp service nodeName }) ∧
    ((service :: rest).foldl (processService decode nodeName) config =
      rest.foldl (processService decode nodeName)
        (processService decode nodeName config service)) := by
  refine ⟨fun h => ?_, fun c h => ?_, rfl⟩
  · simp [processService, h]
  · simp [processService, h]

/-- A decoder that always fails, used by the C9 witness. -/
def decodeFail : DecodeFn := fun _ _ => none

/-- A decoder that merges nothing and succeeds, used by the C9 witness. -/
def decodeKeep : DecodeFn := fun _ cfg => some cfg

/-- Witness for C9: a failing decode leaves the aggregate untouched and a
succeeding decode hands it to the three synthesizers. -/
theorem generateConfiguration_decode_skip_witness :
    processService decodeFail "pve" Dynamic.emptyConfiguration svcW =
      Dynamic.emptyConfiguration ∧
    processService decodeKeep "pve" Dynamic.emptyConfiguration svcW =
      { http := buildHTTPConfiguration Dynamic.emptyConfiguration.http
          svcW "pve",
        tcp := buildTCPConfiguration Dynamic.emptyConfiguration.tcp
          svcW "pve",
        udp := buildUDPConfiguration Dynamic.emptyConfiguration.udp
          svcW "pve" } :=
  ⟨(generateConfiguration_decode_skip decodeFail "pve"
      Dynamic.emptyConfiguration svcW []).1 rfl,
   (generateConfiguration_decode_skip decodeKeep "pve"
      Dynamic.emptyConfiguration svcW []).2.1
      Dynamic.emptyConfiguration rfl⟩

/-- Claim C10: a running workload passing the enable gate whose address
fetch failed is still appended to the service list, with an empty address
list, so every server address it needs later resolves to the DNS fallback
<workload-name>.<node-name>. -/
theorem scan_keeps_workload_on_address_failure
    (w : WorkloadScan) (cfg : List (String × String)) (nodeName : String)
    (restV restC : List WorkloadScan)
    (h1 : w.status = "running") (h2 : w.config = some cfg)
    (h3 : w.addressReport = none)
    (h4 : (lookupA cfg "traefik.enable").getD "" = "true") :
    scanVMs (w :: restV) = serviceOfScan w cfg :: scanVMs restV ∧
    scanContainers (w :: restC) =
      serviceOfScan w cfg :: scanContainers restC ∧
    (serviceOfScan w cfg).ips = [] ∧
    getServiceIP (serviceOfScan w cfg) nodeName =
      w.name ++ "." ++ nodeName := by
  refine ⟨?_, ?_, ?_, ?_⟩
  · simp [scanVMs, h1, h2]
  · simp [scanContainers, h1, h2, h4]
  · simp [serviceOfScan, h3]
  · simp [getServiceIP, getServiceIPLoop, serviceOfScan, h3]

/-- A running, enabled workload whose address fetch failed, used by the C10
witness. -/
def wNoAddr : WorkloadScan :=
  { vmid := 12, name := "app", status := "running",
    config := some [("traefik.enable", "true")], addressReport := none }

/-- Witness for C10 at a concrete workload whose address fetch failed. -/
theorem scan_keeps_workload_on_address_failure_witness :
    scanVMs [wNoAddr] =
      [serviceOfScan wNoAddr [("traefik.enable", "true")]] ∧
    scanContainers [wNoAddr] =
      [serviceOfScan wNoAddr [("traefik.enable", "true")]] ∧
    (serviceOfScan wNoAddr [("traefik.enable", "true")]).ips = [] ∧
    getServiceIP (serviceOfScan wNoAddr [("traefik.enable", "true")]) "pve" =
      wNoAddr.name ++ "." ++ "pve" := by
  have h := scan_keeps_workload_on_address_failure wNoAddr
    [("traefik.enable", "true")] "pve" [] [] rfl rfl rfl rfl
  exact ⟨h.1, h.2.1, h.2.2.1, h.2.2.2⟩

end ProxmoxProvider
